import Mathlib

/-!
Verification of the vendor HTTP transport and error-classification layer
(`src/utils/transport.util.ts`) of the Bitbucket MCP server.

The TypeScript source is shallowly embedded: configuration lookup results are
`Option String` (with JavaScript truthiness made explicit), the credential
struct mirrors `AtlassianCredentials` field by field, and the request/response
pipeline of `fetchAtlassian` is split into the pure stages the source performs
in order (auth-header construction, header merging, body encoding, size guard,
error classification, body decoding), each translated from the corresponding
lines of the source.
-/

/-- JavaScript truthiness of a configuration lookup result: `undefined` and
the empty string are falsy, every other string truthy. -/
def isTruthy : Option String → Bool
  | none => false
  | some s => s ≠ ""

/-- JavaScript `a || b` on configuration lookup results: `a` when truthy,
otherwise `b`. -/
def jsOr (a b : Option String) : Option String :=
  if isTruthy a then a else b

/-- Truthiness of an optional boolean field (`undefined` is falsy). -/
def jsTruthyBool (o : Option Bool) : Bool :=
  o.getD false

/-- Modelled from the spec: the process-wide configuration read by
`config.get` (the `config.util.ts` module is not part of the provided
sources).  One field per configuration key consumed by
`getAtlassianCredentials`; `none` models an unset key. -/
structure Config where
  BITBUCKET_ACCESS_TOKEN : Option String := none
  BITBUCKET_OAUTH_TOKEN : Option String := none
  ATLASSIAN_SITE_NAME : Option String := none
  ATLASSIAN_USER_EMAIL : Option String := none
  ATLASSIAN_API_TOKEN : Option String := none
  ATLASSIAN_BITBUCKET_USERNAME : Option String := none
  ATLASSIAN_BITBUCKET_APP_PASSWORD : Option String := none
deriving DecidableEq, Repr

/-- The `AtlassianCredentials` interface of `transport.util.ts` (lines
14-27).  Every field is optional, exactly as in the TypeScript interface;
a field absent from an object literal in the source is `none` here. -/
structure AtlassianCredentials where
  oauthToken : Option String := none
  useOAuth : Option Bool := none
  siteName : Option String := none
  userEmail : Option String := none
  apiToken : Option String := none
  bitbucketUsername : Option String := none
  bitbucketAppPassword : Option String := none
  useBitbucketAuth : Option Bool := none
deriving DecidableEq, Repr

/-- The resolver `getAtlassianCredentials` (transport.util.ts lines 49-101): OAuth token
(either key, `||`-chained) first, then the standard email/API-token pair,
then the Bitbucket username/app-password pair, otherwise `null`. -/
def getAtlassianCredentials (c : Config) : Option AtlassianCredentials :=
  let oauthToken := jsOr c.BITBUCKET_ACCESS_TOKEN c.BITBUCKET_OAUTH_TOKEN
  if isTruthy oauthToken then
    some { oauthToken := oauthToken, useOAuth := some true }
  else
    if isTruthy c.ATLASSIAN_USER_EMAIL && isTruthy c.ATLASSIAN_API_TOKEN then
      some { siteName := c.ATLASSIAN_SITE_NAME,
             userEmail := c.ATLASSIAN_USER_EMAIL,
             apiToken := c.ATLASSIAN_API_TOKEN,
             useBitbucketAuth := some false }
    else
      if isTruthy c.ATLASSIAN_BITBUCKET_USERNAME &&
          isTruthy c.ATLASSIAN_BITBUCKET_APP_PASSWORD then
        some { bitbucketUsername := c.ATLASSIAN_BITBUCKET_USERNAME,
               bitbucketAppPassword := c.ATLASSIAN_BITBUCKET_APP_PASSWORD,
               useBitbucketAuth := some true }
      else
        none

/-- The typed-error taxonomy of the spec (§3), realised by `error.util.ts`. -/
inductive ErrorKind where
  | AuthMissing
  | AuthInvalid
  | ApiError
  | UnexpectedError
deriving DecidableEq, Repr

/-- A typed transport error: kind, human-readable message, optional HTTP
status.  The opaque `cause` carried by the source's `McpError` is not
modelled (no claim mentions it). -/
structure McpError where
  kind : ErrorKind
  message : String
  status : Option Nat
deriving DecidableEq, Repr

/-- Modelled from the spec: `createAuthInvalidError` of `error.util.ts`
(not in the provided sources) produces a typed error of kind `AuthInvalid`. -/
def createAuthInvalidError (msg : String) : McpError :=
  { kind := ErrorKind.AuthInvalid, message := msg, status := none }

/-- Modelled from the spec: `createApiError` of `error.util.ts` (not in the
provided sources) produces a typed error of kind `ApiError` carrying the
given HTTP status. -/
def createApiError (msg : String) (code : Nat) : McpError :=
  { kind := ErrorKind.ApiError, message := msg, status := some code }

/-- Modelled from the spec: `createUnexpectedError` of `error.util.ts`
(not in the provided sources) produces a typed error of kind
`UnexpectedError` with no HTTP status. -/
def createUnexpectedError (msg : String) : McpError :=
  { kind := ErrorKind.UnexpectedError, message := msg, status := none }

/-! ## JSON values

`JSON.parse` / `JSON.stringify` operate on JavaScript values; we embed the
JSON value universe.  Numbers are modelled as integers (the transport layer
never produces non-integer numbers and no claim involves them); a body whose
JSON contains a fractional or exponent number fails to parse in this model,
which only makes the classifier fall back to its default message. -/

inductive Json where
  | null
  | bool (b : Bool)
  | num (n : Int)
  | str (s : String)
  | arr (elems : List Json)
  | obj (fields : List (String × Json))
deriving Repr

/-- JavaScript truthiness of a JSON value. -/
def Json.truthy : Json → Bool
  | .null => false
  | .bool b => b
  | .num n => n != 0
  | .str s => s ≠ ""
  | .arr _ => true
  | .obj _ => true

/-- Is the value a string (`typeof v === "string"`)? -/
def Json.isStr : Json → Bool
  | .str _ => true
  | _ => false

/-- JavaScript property access `v[k]` on a parsed JSON value; `undefined`
(absent key or non-object receiver) is modelled as `Json.null`, which has the
same truthiness.  `JSON.parse` keeps the last of duplicate keys, hence the
reversed search. -/
def Json.getProp : Json → String → Json
  | .obj fields, k =>
      match fields.reverse.find? (fun p => p.1 == k) with
      | some p => p.2
      | none => .null
  | _, _ => .null

mutual
/-- JavaScript string coercion of a JSON value (used when a vendor error
field that is not a string is concatenated into a message). -/
def jsToString : Json → String
  | .null => "null"
  | .bool b => if b then "true" else "false"
  | .num n => toString n
  | .str s => s
  | .arr xs => jsToStringArr xs
  | .obj _ => "[object Object]"

/-- Array-to-string coercion: elements joined by commas, `null` printed empty. -/
def jsToStringArr : List Json → String
  | [] => ""
  | x :: xs =>
    let s := match x with
      | .null => ""
      | v => jsToString v
    match xs with
    | [] => s
    | _ => s ++ "," ++ jsToStringArr xs
end

/-- Escape one character for a JSON string literal (the escapes
`JSON.stringify` emits for the characters appearing in this development). -/
def jsonEscapeChar (c : Char) : String :=
  if c = '"' then "\\\""
  else if c = '\\' then "\\\\"
  else if c = Char.ofNat 10 then "\\n"
  else if c = Char.ofNat 13 then "\\r"
  else if c = Char.ofNat 9 then "\\t"
  else String.singleton c

/-- Escape a string for a JSON string literal. -/
def jsonEscape (s : String) : String :=
  String.join (s.toList.map jsonEscapeChar)

mutual
/-- Embedding of `JSON.stringify` (compact form, no spacing), as used for structured
request bodies. -/
def Json.serialize : Json → String
  | .null => "null"
  | .bool b => if b then "true" else "false"
  | .num n => toString n
  | .str s => "\"" ++ jsonEscape s ++ "\""
  | .arr xs => "[" ++ serializeElems xs ++ "]"
  | .obj fs => "\x7b" ++ serializeFields fs ++ "\x7d"

/-- Serialize array elements, comma separated. -/
def serializeElems : List Json → String
  | [] => ""
  | [x] => Json.serialize x
  | x :: xs => Json.serialize x ++ "," ++ serializeElems xs

/-- Serialize object members, comma separated. -/
def serializeFields : List (String × Json) → String
  | [] => ""
  | [(k, v)] => "\"" ++ jsonEscape k ++ "\":" ++ Json.serialize v
  | (k, v) :: fs =>
      "\"" ++ jsonEscape k ++ "\":" ++ Json.serialize v ++ "," ++ serializeFields fs
end

/-! ## A JSON parser (`JSON.parse`)

Recursive-descent with explicit fuel (bounded by the input length, so the
parser is total and executable).  Restrictions, documented against the
source: `\uXXXX` string escapes and fractional/exponent numbers are not
modelled; inputs using them fail to parse here, which only drives the
classifier to its fallback message. -/

/-- Skip JSON whitespace. -/
def skipWs : List Char → List Char
  | [] => []
  | c :: cs =>
    if c = ' ' || c = Char.ofNat 9 || c = Char.ofNat 10 || c = Char.ofNat 13 then
      skipWs cs
    else c :: cs

/-- Decode one character escape of a JSON string literal. -/
def jsonEscCode (e : Char) : Option Char :=
  if e = '"' then some '"'
  else if e = '\\' then some '\\'
  else if e = '/' then some '/'
  else if e = 'n' then some (Char.ofNat 10)
  else if e = 't' then some (Char.ofNat 9)
  else if e = 'r' then some (Char.ofNat 13)
  else if e = 'b' then some (Char.ofNat 8)
  else if e = 'f' then some (Char.ofNat 12)
  else none

/-- Parse the characters of a JSON string literal after its opening quote,
returning the decoded characters and the rest of the input. -/
def parseStringChars : List Char → Option (List Char × List Char)
  | [] => none
  | c :: cs =>
    if c = '"' then some ([], cs)
    else if c = '\\' then
      match cs with
      | [] => none
      | e :: cs2 =>
        match jsonEscCode e with
        | some d =>
          match parseStringChars cs2 with
          | some (s, r) => some (d :: s, r)
          | none => none
        | none => none
    else
      match parseStringChars cs with
      | some (s, r) => some (c :: s, r)
      | none => none

/-- Split a leading run of decimal digits from the input. -/
def parseDigits : List Char → List Char × List Char
  | [] => ([], [])
  | c :: cs =>
    if c.isDigit then
      let (ds, r) := parseDigits cs
      (c :: ds, r)
    else ([], c :: cs)

/-- Numeric value of a digit run. -/
def digitsToNat (ds : List Char) : Nat :=
  ds.foldl (fun a c => a * 10 + (c.toNat - 48)) 0

/-- Does the input continue with a fractional part or exponent (which this
model does not support)? -/
def numberContinues : List Char → Bool
  | c :: _ => c = '.' || c = 'e' || c = 'E'
  | [] => false

mutual
/-- Parse one JSON value. -/
def parseValue : Nat → List Char → Option (Json × List Char)
  | 0, _ => none
  | fuel + 1, cs =>
    match skipWs cs with
    | [] => none
    | c :: rest =>
      if c = '"' then
        match parseStringChars rest with
        | some (s, r) => some (Json.str (String.mk s), r)
        | none => none
      else if c = Char.ofNat 123 then
        parseObjRest fuel (skipWs rest) []
      else if c = '[' then
        parseArrRest fuel (skipWs rest) []
      else if c = 't' then
        match rest with
        | 'r' :: 'u' :: 'e' :: r => some (Json.bool true, r)
        | _ => none
      else if c = 'f' then
        match rest with
        | 'a' :: 'l' :: 's' :: 'e' :: r => some (Json.bool false, r)
        | _ => none
      else if c = 'n' then
        match rest with
        | 'u' :: 'l' :: 'l' :: r => some (Json.null, r)
        | _ => none
      else if c = '-' then
        match parseDigits rest with
        | ([], _) => none
        | (ds, r) =>
          if numberContinues r then none
          else some (Json.num (-(digitsToNat ds : Int)), r)
      else if c.isDigit then
        match parseDigits (c :: rest) with
        | ([], _) => none
        | (ds, r) =>
          if numberContinues r then none
          else some (Json.num ((digitsToNat ds : Int)), r)
      else none

/-- Parse the members of a JSON object after its opening brace (input
already whitespace-stripped); `acc` holds the members seen so far, reversed. -/
def parseObjRest : Nat → List Char → List (String × Json) →
    Option (Json × List Char)
  | 0, _, _ => none
  | fuel + 1, cs, acc =>
    match cs with
    | [] => none
    | c :: rest =>
      if c = Char.ofNat 125 then some (Json.obj acc.reverse, rest)
      else if c = '"' then
        match parseStringChars rest with
        | some (k, r1) =>
          match skipWs r1 with
          | ':' :: r2 =>
            match parseValue fuel r2 with
            | some (v, r3) =>
              match skipWs r3 with
              | ',' :: r4 =>
                (match skipWs r4 with
                 | c3 :: r5 =>
                   if c3 = Char.ofNat 125 then none
                   else parseObjRest fuel (c3 :: r5) ((String.mk k, v) :: acc)
                 | [] => none)
              | c2 :: r4 =>
                if c2 = Char.ofNat 125 then
                  some (Json.obj ((String.mk k, v) :: acc).reverse, r4)
                else none
              | [] => none
            | none => none
          | _ => none
        | none => none
      else none

/-- Parse the elements of a JSON array after its opening bracket (input
already whitespace-stripped); `acc` holds the elements seen so far, reversed. -/
def parseArrRest : Nat → List Char → List Json → Option (Json × List Char)
  | 0, _, _ => none
  | fuel + 1, cs, acc =>
    match cs with
    | [] => none
    | c :: rest =>
      if c = ']' then some (Json.arr acc.reverse, rest)
      else
        match parseValue fuel (c :: rest) with
        | some (v, r1) =>
          match skipWs r1 with
          | ',' :: r2 =>
            (match skipWs r2 with
             | c2 :: r3 =>
               if c2 = ']' then none
               else parseArrRest fuel (c2 :: r3) (v :: acc)
             | [] => none)
          | ']' :: r2 => some (Json.arr (v :: acc).reverse, r2)
          | _ => none
        | none => none
end

/-- Embedding of `JSON.parse`: parse a whole string as one JSON value (trailing
whitespace allowed, anything else after the value rejected). -/
def Json.parse (s : String) : Option Json :=
  let cs := s.toList
  match parseValue (2 * cs.length + 2) cs with
  | some (v, rest) => if (skipWs rest).isEmpty then some v else none
  | none => none

/-- JavaScript `String.prototype.includes`: `sub` occurs in `hay`. -/
def strHasPre : List Char → List Char → Bool
  | [], _ => true
  | _ :: _, [] => false
  | a :: as, b :: bs => a = b && strHasPre as bs

/-- Substring occurrence on character lists. -/
def hasSubList : List Char → List Char → Bool
  | hay, sub =>
    if strHasPre sub hay then true
    else
      match hay with
      | [] => false
      | _ :: t => hasSubList t sub

/-- JavaScript `hay.includes(sub)`. -/
def jsIncludes (hay sub : String) : Bool :=
  hasSubList hay.toList sub.toList

/-- JavaScript `s.startsWith(pre)`. -/
def jsStartsWith (s pre : String) : Bool :=
  strHasPre pre.toList s.toList

/-- JavaScript `s.trim()`: strip leading and trailing whitespace. -/
def jsTrim (s : String) : String :=
  String.mk
    (((s.toList.dropWhile Char.isWhitespace).reverse.dropWhile
      Char.isWhitespace).reverse)

/-! ## Error classification (transport.util.ts lines 244-355) -/

/-- Is the value strictly equal to the string literal `"error"`
(`parsedError.type === 'error'`)? -/
def Json.isErrorTag : Json → Bool
  | .str s => s = "error"
  | _ => false

/-- The vendor-error message cascade of lines 262-293: the four recognised
Bitbucket/Atlassian error body shapes, tried in the source's order.  Returns
`none` when no shape matches (the default message stays in place). -/
def extractVendorMessage (p : Json) : Option String :=
  let err := p.getProp "error"
  if (p.getProp "type").isErrorTag && err.truthy && (err.getProp "message").truthy then
    let msg := jsToString (err.getProp "message")
    if (err.getProp "detail").truthy then
      some (msg ++ " Detail: " ++ jsToString (err.getProp "detail"))
    else
      some msg
  else if err.truthy && (err.getProp "message").truthy then
    some (jsToString (err.getProp "message"))
  else
    match p.getProp "errors" with
    | Json.arr (a :: _) =>
        if (a.getProp "title").truthy then some (jsToString (a.getProp "title"))
        else none
    | _ =>
        if (p.getProp "message").truthy then some (jsToString (p.getProp "message"))
        else none

/-- Lines 252-298: the error message for a non-2xx response, starting from
the default `"<status> <statusText>"`, replaced by a vendor message when the
body looks like JSON, parses, and matches one of the recognised shapes. -/
def extractErrorMessage (status : Nat) (statusText : String) (errorText : String) :
    String :=
  let defMsg := toString status ++ " " ++ statusText
  if errorText ≠ "" &&
      (jsStartsWith errorText "\x7b" || jsStartsWith errorText "[") then
    match Json.parse errorText with
    | none => defMsg
    | some p =>
      match extractVendorMessage p with
      | some m => m
      | none => defMsg
  else defMsg

/-- Lines 309-354: map a non-2xx status (with its extracted message) to the
typed error thrown by `fetchAtlassian`. -/
def classify (status : Nat) (statusText : String) (errorText : String) : McpError :=
  let errorMessage := extractErrorMessage status statusText errorText
  if status = 401 then
    createAuthInvalidError ("Bitbucket API: Authentication failed - " ++ errorMessage)
  else if status = 403 then
    createApiError ("Bitbucket API: Permission denied - " ++ errorMessage) 403
  else if status = 404 then
    createApiError ("Bitbucket API: Resource not found - " ++ errorMessage) 404
  else if status = 429 then
    createApiError ("Bitbucket API: Rate limit exceeded - " ++ errorMessage) 429
  else if status ≥ 500 then
    createApiError ("Bitbucket API: Service error - " ++ errorMessage) status
  else
    createApiError ("Bitbucket API Error: " ++ errorMessage) status

/-! ## Response handling (transport.util.ts lines 213-395) -/

/-- A raw HTTP response as seen by `fetchAtlassian`: status, status text and
the two headers it reads (`none` models an absent header), plus the body
text. -/
structure RawResponse where
  status : Nat
  statusText : String
  contentLength : Option String := none
  contentType : Option String := none
  body : String := ""
deriving Repr

/-- The `response.ok` test: status in the 2xx range. -/
def responseOk (r : RawResponse) : Bool :=
  200 ≤ r.status && r.status ≤ 299

/-- Embedding of `parseInt(s, 10)` restricted to the non-negative decimal inputs a
`Content-Length` header carries; `none` models `NaN`. -/
def jsParseInt (s : String) : Option Nat :=
  let ds := s.toList.takeWhile Char.isDigit
  if ds.isEmpty then none else some (digitsToNat ds)

/-- The declared response size of lines 229-231: the `Content-Length`
header, when present and truthy, parsed as a decimal; `none` when the
header is absent, empty, or does not parse (`NaN`). -/
def declaredSize (r : RawResponse) : Option Nat :=
  match r.contentLength with
  | none => none
  | some s => if s = "" then none else jsParseInt s

/-- The size-guard condition of line 232 (`responseSize > MAX_RESPONSE_SIZE`;
a `NaN` comparison is false). -/
def sizeExceeded (maxSize : Nat) (r : RawResponse) : Bool :=
  match declaredSize r with
  | some n => maxSize < n
  | none => false

/-- Embedding of `Math.round (n / d)` for natural `n` and positive `d` (the source divides
by 1024*1024 when formatting the 413 message). -/
def mathRoundDiv (n d : Nat) : Nat :=
  (n + d / 2) / d

/-- The decoded body of a successful response (spec §3 `DecodedBody`). -/
inductive DecodedBody where
  | json (v : Json)
  | text (s : String)
  | empty
deriving Repr

/-- The ResponseDecoder (lines 357-395), applied to a 2xx response:
`text/plain` content type returns the raw text; an empty or whitespace-only
body returns the empty result; otherwise JSON parse with raw-text fallback. -/
def decodeSuccessBody (contentType : Option String) (body : String) : DecodedBody :=
  let ct := contentType.getD ""
  if jsIncludes ct "text/plain" then
    DecodedBody.text body
  else if body = "" || jsTrim body = "" then
    DecodedBody.empty
  else
    match Json.parse body with
    | some v => DecodedBody.json v
    | none => DecodedBody.text body

/-- The outcome of one call: a decoded body or a typed error. -/
inductive FetchResult where
  | ok (body : DecodedBody)
  | err (e : McpError)
deriving Repr

/-- Lines 228-395 applied to an arrived response, in source order: size
guard first (413), then error classification for non-2xx, then body
decoding.  `maxSize` is the external `DATA_LIMITS.MAX_RESPONSE_SIZE`
collaborator constant, passed explicitly. -/
def handleResponse (maxSize : Nat) (r : RawResponse) : FetchResult :=
  if sizeExceeded maxSize r then
    let responseSize := (declaredSize r).getD 0
    FetchResult.err (createApiError
      ("Response size (" ++ toString (mathRoundDiv responseSize 1048576) ++
        "MB) exceeds maximum limit of " ++ toString (mathRoundDiv maxSize 1048576) ++
        "MB") 413)
  else if !(responseOk r) then
    FetchResult.err (classify r.status r.statusText r.body)
  else
    FetchResult.ok (decodeSuccessBody r.contentType r.body)

/-- How the awaited `fetch` resolves: an HTTP response, an `AbortError`
raised by the cancellation timer, a network `TypeError`, a JSON
`SyntaxError`, or any other exception. -/
inductive FetchOutcome where
  | response (r : RawResponse)
  | abortError
  | networkError (msg : String)
  | syntaxError (msg : String)
  | otherError (msg : String)
deriving Repr

/-- JavaScript number formatting of `ms / 1000` (the source interpolates
`timeoutMs / 1000` into the timeout message): the exact decimal, trailing
zeros stripped. -/
def formatMsAsSeconds (ms : Nat) : String :=
  let whole := ms / 1000
  let frac := ms % 1000
  if frac = 0 then toString whole
  else
    let d3 := (toString (frac + 1000)).drop 1
    let trimmed := (d3.toList.reverse.dropWhile (fun c => c = '0')).reverse
    toString whole ++ "." ++ String.mk trimmed

/-- The dispatch wrapper of lines 204-453: the timer is armed before the
exchange and `clearTimeout` runs on line 215 (response arrived) or line 397
(any exception), so every path records the timer as cleared.  The result
pairs the call's outcome with whether the cancellation timer was disarmed. -/
def fetchAtlassian (maxSize : Nat) (timeoutMs : Nat) (outcome : FetchOutcome) :
    FetchResult × Bool :=
  match outcome with
  | FetchOutcome.response r =>
      -- line 215: clearTimeout(timeoutId) right after `await fetch`
      (handleResponse maxSize r, true)
  | FetchOutcome.abortError =>
      -- line 397 clears the timer; lines 406-415 classify the abort
      (FetchResult.err (createApiError
        ("Request timeout: Bitbucket API did not respond within " ++
          formatMsAsSeconds timeoutMs ++ " seconds") 408), true)
  | FetchOutcome.networkError m =>
      -- lines 418-428: a TypeError is a network failure, reported as 500
      (FetchResult.err (createApiError
        ("Network error while calling Bitbucket API: " ++ m) 500), true)
  | FetchOutcome.syntaxError m =>
      -- lines 431-446: empty-JSON leniency, otherwise a 500 format error
      if jsIncludes m "Unexpected end of JSON input" then
        (FetchResult.ok DecodedBody.empty, true)
      else
        (FetchResult.err (createApiError
          ("Invalid response format from Bitbucket API: " ++ m) 500), true)
  | FetchOutcome.otherError m =>
      -- lines 449-452: everything else is unexpected
      (FetchResult.err (createUnexpectedError
        ("Unexpected error while calling Bitbucket API: " ++ m)), true)

/-! ## Request building (transport.util.ts lines 120-194) -/

/-- Lookup in a JavaScript object built from an association list where a
later binding for the same key overrides an earlier one (object literal with
spread). -/
def getHeader (hs : List (String × String)) (k : String) : Option String :=
  match hs with
  | [] => none
  | p :: t =>
    match getHeader t k with
    | some v => some v
    | none => if p.1 = k then some p.2 else none

/-- The base64 alphabet. -/
def b64Char (n : Nat) : Char :=
  "ABCDEFGHIJKLMNOPQRSTUVWXYZabcdefghijklmnopqrstuvwxyz0123456789+/".toList.getD n 'A'

/-- Base64 of a byte list (`Buffer.from(s).toString('base64')`). -/
def base64EncodeBytes : List Nat → String
  | [] => ""
  | [a] => String.mk [b64Char (a / 4), b64Char (a % 4 * 16)] ++ "=="
  | [a, b] =>
      String.mk [b64Char (a / 4), b64Char (a % 4 * 16 + b / 16),
        b64Char (b % 16 * 4)] ++ "="
  | a :: b :: c :: rest =>
      String.mk [b64Char (a / 4), b64Char (a % 4 * 16 + b / 16),
        b64Char (b % 16 * 4 + c / 64), b64Char (c % 64)] ++
      base64EncodeBytes rest

/-- Embedding of `Buffer.from(s).toString('base64')` on the UTF-8 bytes of `s`. -/
def base64Encode (s : String) : String :=
  base64EncodeBytes (s.toUTF8.toList.map UInt8.toNat)

/-- Lines 123-152: the `Authorization` header for the given credential
variant, with the source's defensive checks (`AuthInvalid` when the active
variant is missing a required field). -/
def authHeaderFor (credentials : AtlassianCredentials) : Except McpError String :=
  if jsTruthyBool credentials.useOAuth then
    if isTruthy credentials.oauthToken then
      Except.ok ("Bearer " ++ credentials.oauthToken.getD "")
    else
      Except.error (createAuthInvalidError "Missing OAuth token")
  else if jsTruthyBool credentials.useBitbucketAuth then
    if isTruthy credentials.bitbucketUsername &&
        isTruthy credentials.bitbucketAppPassword then
      Except.ok ("Basic " ++ base64Encode
        (credentials.bitbucketUsername.getD "" ++ ":" ++
          credentials.bitbucketAppPassword.getD ""))
    else
      Except.error (createAuthInvalidError "Missing Bitbucket username or app password")
  else
    if isTruthy credentials.userEmail && isTruthy credentials.apiToken then
      Except.ok ("Basic " ++ base64Encode
        (credentials.userEmail.getD "" ++ ":" ++ credentials.apiToken.getD ""))
    else
      Except.error (createAuthInvalidError "Missing Atlassian credentials")

/-- The `RequestOptions` interface (lines 32-37); the body is a JavaScript
value (`unknown`), embedded as an optional JSON value. -/
structure RequestOptions where
  method : Option String := none
  headers : List (String × String) := []
  body : Option Json := none
  timeout : Option Nat := none

/-- The request body put on the wire: absent, a string, or — through the
source's `as string` casts on the multipart / url-encoded branches — a
structured value passed along unchanged. -/
inductive EncodedBody where
  | missing
  | str (s : String)
  | raw (v : Json)
deriving Repr

/-- The multipart test of line 177:
`headers['Content-Type']?.includes('multipart/form-data')` (optional
chaining makes an absent header falsy). -/
def multipartContentType (headers : List (String × String)) : Bool :=
  match getHeader headers "Content-Type" with
  | some s => jsIncludes s "multipart/form-data"
  | none => false

/-- Lines 173-187: body encoding against the merged headers.  A falsy body
(`undefined`, empty string) leaves the request body unset; a string passes
through; a structured value passes through unencoded when the effective
`Content-Type` includes `multipart/form-data` or equals
`application/x-www-form-urlencoded`, and is `JSON.stringify`-ed otherwise. -/
def encodeBody (headers : List (String × String)) (body : Option Json) :
    EncodedBody :=
  match body with
  | none => EncodedBody.missing
  | some b =>
    if b.truthy then
      if b.isStr then
        EncodedBody.str (jsToString b)
      else
        if multipartContentType headers then
          EncodedBody.raw b
        else if getHeader headers "Content-Type" =
            some "application/x-www-form-urlencoded" then
          EncodedBody.raw b
        else
          EncodedBody.str (Json.serialize b)
    else EncodedBody.missing

/-- A fully-built HTTP request. -/
structure HttpRequest where
  url : String
  method : String
  headers : List (String × String)
  body : EncodedBody
deriving Repr

/-- Lines 120-194: the RequestBuilder.  Resolves the auth header, normalizes
the path against the fixed base URL, merges the default headers with the
caller's (caller wins, object-spread semantics), and encodes the body. -/
def buildRequest (credentials : AtlassianCredentials) (path : String)
    (options : RequestOptions) : Except McpError HttpRequest :=
  match authHeaderFor credentials with
  | Except.error e => Except.error e
  | Except.ok authHeader =>
    let normalizedPath := if jsStartsWith path "/" then path else "/" ++ path
    let url := "https://api.bitbucket.org" ++ normalizedPath
    let defaultContentType :=
      match getHeader options.headers "Content-Type" with
      | some s => if s = "" then "application/json" else s
      | none => "application/json"
    let headers :=
      [("Authorization", authHeader), ("Content-Type", defaultContentType),
       ("Accept", "application/json")] ++ options.headers
    Except.ok
      { url := url,
        method := (options.method.getD "GET"),
        headers := headers,
        body := encodeBody headers options.body }

/-! ## Helper notions for the claims -/

/-- A truthy configuration value is present. -/
theorem isSome_of_isTruthy {o : Option String} (h : isTruthy o = true) :
    o.isSome = true := by
  cases o with
  | none => simp [isTruthy] at h
  | some s => rfl

/-- The three credential variants of the spec's data model (§3). -/
inductive CredVariant where
  | oauth
  | basicEmailToken
  | basicUserPass
deriving DecidableEq, Repr

/-- The variants whose payload fields are populated in a credentials
struct (spec §3: `OAuthToken` owns `oauthToken`; `BasicEmailToken` owns
`siteName`/`userEmail`/`apiToken`; `BasicUsernamePassword` owns
`bitbucketUsername`/`bitbucketAppPassword`). -/
def populatedVariants (cr : AtlassianCredentials) : List CredVariant :=
  (if cr.oauthToken.isSome then [CredVariant.oauth] else []) ++
  (if cr.siteName.isSome || cr.userEmail.isSome || cr.apiToken.isSome then
    [CredVariant.basicEmailToken] else []) ++
  (if cr.bitbucketUsername.isSome || cr.bitbucketAppPassword.isSome then
    [CredVariant.basicUserPass] else [])

/-- The variant selected by the consumer (`fetchAtlassian`, lines 125-152)
from the two explicit discriminant flags alone — no payload field is
consulted. -/
def variantOfDiscriminant (uo ub : Option Bool) : CredVariant :=
  if jsTruthyBool uo then CredVariant.oauth
  else if jsTruthyBool ub then CredVariant.basicUserPass
  else CredVariant.basicEmailToken

/-- Claim C6: credential resolution follows the fixed precedence: a
configured OAuth token (under either key) always yields the OAuth variant,
even when the email/API-token pair is also fully configured; with no OAuth
token and no complete email/token pair, a configured username/app-password
pair yields the Bitbucket-auth variant; with no variant fully satisfied the
resolver returns `none` (and, being total, cannot throw). -/
theorem getAtlassianCredentials_precedence (c : Config) :
    (isTruthy (jsOr c.BITBUCKET_ACCESS_TOKEN c.BITBUCKET_OAUTH_TOKEN) = true →
      getAtlassianCredentials c =
        some { oauthToken := jsOr c.BITBUCKET_ACCESS_TOKEN c.BITBUCKET_OAUTH_TOKEN,
               useOAuth := some true }) ∧
    (isTruthy (jsOr c.BITBUCKET_ACCESS_TOKEN c.BITBUCKET_OAUTH_TOKEN) = false →
      (isTruthy c.ATLASSIAN_USER_EMAIL && isTruthy c.ATLASSIAN_API_TOKEN) = false →
      (isTruthy c.ATLASSIAN_BITBUCKET_USERNAME &&
        isTruthy c.ATLASSIAN_BITBUCKET_APP_PASSWORD) = true →
      getAtlassianCredentials c =
        some { bitbucketUsername := c.ATLASSIAN_BITBUCKET_USERNAME,
               bitbucketAppPassword := c.ATLASSIAN_BITBUCKET_APP_PASSWORD,
               useBitbucketAuth := some true }) ∧
    (isTruthy (jsOr c.BITBUCKET_ACCESS_TOKEN c.BITBUCKET_OAUTH_TOKEN) = false →
      (isTruthy c.ATLASSIAN_USER_EMAIL && isTruthy c.ATLASSIAN_API_TOKEN) = false →
      (isTruthy c.ATLASSIAN_BITBUCKET_USERNAME &&
        isTruthy c.ATLASSIAN_BITBUCKET_APP_PASSWORD) = false →
      getAtlassianCredentials c = none) := by
  refine ⟨fun h1 => ?_, fun h1 h2 h3 => ?_, fun h1 h2 h3 => ?_⟩ <;>
    simp [getAtlassianCredentials, h1, *]

/-- Witness for C6: the three precedence cases at concrete configurations;
in the first, a complete email/token pair is also configured and loses. -/
theorem getAtlassianCredentials_precedence_witness :
    getAtlassianCredentials
        { BITBUCKET_ACCESS_TOKEN := some "tok",
          ATLASSIAN_USER_EMAIL := some "e", ATLASSIAN_API_TOKEN := some "t" } =
      some { oauthToken := some "tok", useOAuth := some true } ∧
    getAtlassianCredentials
        { ATLASSIAN_BITBUCKET_USERNAME := some "u",
          ATLASSIAN_BITBUCKET_APP_PASSWORD := some "p" } =
      some { bitbucketUsername := some "u", bitbucketAppPassword := some "p",
             useBitbucketAuth := some true } ∧
    getAtlassianCredentials {} = none := by
  refine ⟨(getAtlassianCredentials_precedence _).1 (by decide),
    (getAtlassianCredentials_precedence _).2.1 (by decide) (by decide) (by decide),
    (getAtlassianCredentials_precedence _).2.2 (by decide) (by decide) (by decide)⟩

/-- Claim C9: every non-null resolution result populates the payload fields
of exactly one variant (the populated-variant list is a singleton), and the
two explicit discriminant flags alone determine that variant. -/
theorem credentials_single_variant (c : Config) (cred : AtlassianCredentials)
    (h : getAtlassianCredentials c = some cred) :
    populatedVariants cred =
      [variantOfDiscriminant cred.useOAuth cred.useBitbucketAuth] := by
  simp only [getAtlassianCredentials] at h
  split_ifs at h with h1 h2 h3
  · injection h with h'
    subst h'
    simp [populatedVariants, variantOfDiscriminant, jsTruthyBool,
      isSome_of_isTruthy h1]
  · rw [Bool.and_eq_true] at h2
    injection h with h'
    subst h'
    simp [populatedVariants, variantOfDiscriminant, jsTruthyBool,
      isSome_of_isTruthy h2.1]
  · injection h with h'
    subst h'
    rw [Bool.and_eq_true] at h3
    simp [populatedVariants, variantOfDiscriminant, jsTruthyBool,
      isSome_of_isTruthy h3.1]

/-- Witness for C9: the email/token resolution result populates exactly the
`BasicEmailToken` fields and its discriminant selects that variant. -/
theorem credentials_single_variant_witness :
    populatedVariants
        { siteName := none, userEmail := some "e", apiToken := some "t",
          useBitbucketAuth := some false } =
      [variantOfDiscriminant (none : Option Bool) (some false)] :=
  credentials_single_variant
    { ATLASSIAN_USER_EMAIL := some "e", ATLASSIAN_API_TOKEN := some "t" } _ rfl

/-- Claim C1: for every non-2xx status, the classification of lines 309-354
produces exactly the kind/status pair of the spec's table: 401 is
`AuthInvalid`; every other non-2xx status (403, 404, 429, every status
greater or equal 500, and every remaining status) is `ApiError` carrying
that same status. -/
theorem classify_status_table (status : Nat) (statusText errorText : String)
    (hnot2xx : status < 200 ∨ 299 < status) :
    (status = 401 →
      (classify status statusText errorText).kind = ErrorKind.AuthInvalid) ∧
    (status ≠ 401 →
      (classify status statusText errorText).kind = ErrorKind.ApiError ∧
      (classify status statusText errorText).status = some status) := by
  constructor
  · intro h401
    subst h401
    rfl
  · intro hne
    unfold classify
    split_ifs with h1 h2 h3 h4 h5
    · exact absurd h1 hne
    · subst h2; exact ⟨rfl, rfl⟩
    · subst h3; exact ⟨rfl, rfl⟩
    · subst h4; exact ⟨rfl, rfl⟩
    · exact ⟨rfl, rfl⟩
    · exact ⟨rfl, rfl⟩

/-- Witness for C1: the table at every status the claim lists, on a concrete
response. -/
theorem classify_status_table_witness :
    (classify 401 "Unauthorized" "").kind = ErrorKind.AuthInvalid ∧
    (classify 403 "Forbidden" "").kind = ErrorKind.ApiError ∧
    (classify 403 "Forbidden" "").status = some 403 ∧
    (classify 404 "Not Found" "").status = some 404 ∧
    (classify 429 "Too Many Requests" "").status = some 429 ∧
    (classify 500 "Internal Server Error" "").status = some 500 ∧
    (classify 502 "Bad Gateway" "").kind = ErrorKind.ApiError ∧
    (classify 502 "Bad Gateway" "").status = some 502 := by
  refine ⟨(classify_status_table 401 "Unauthorized" "" (by decide)).1 rfl,
    ((classify_status_table 403 "Forbidden" "" (by decide)).2 (by decide)).1,
    ((classify_status_table 403 "Forbidden" "" (by decide)).2 (by decide)).2,
    ((classify_status_table 404 "Not Found" "" (by decide)).2 (by decide)).2,
    ((classify_status_table 429 "Too Many Requests" "" (by decide)).2 (by decide)).2,
    ((classify_status_table 500 "Internal Server Error" "" (by decide)).2 (by decide)).2,
    ((classify_status_table 502 "Bad Gateway" "" (by decide)).2 (by decide)).1,
    ((classify_status_table 502 "Bad Gateway" "" (by decide)).2 (by decide)).2⟩

/-- Claim C4: on every completion path of the dispatch the cancellation
timer is disarmed; and a dispatch cancelled by the timer (an `AbortError`)
yields `ApiError` with status 408 whose message states the configured
timeout value. -/
theorem fetch_timeout_and_timer (maxSize timeoutMs : Nat)
    (outcome : FetchOutcome) :
    (fetchAtlassian maxSize timeoutMs outcome).2 = true ∧
    (outcome = FetchOutcome.abortError →
      (fetchAtlassian maxSize timeoutMs outcome).1 =
        FetchResult.err
          { kind := ErrorKind.ApiError,
            message := "Request timeout: Bitbucket API did not respond within "
              ++ formatMsAsSeconds timeoutMs ++ " seconds",
            status := some 408 }) := by
  constructor
  · cases outcome with
    | syntaxError m =>
      simp only [fetchAtlassian]
      split <;> rfl
    | response r => rfl
    | abortError => rfl
    | networkError m => rfl
    | otherError m => rfl
  · rintro rfl
    rfl

/-- Witness for C4: a cancelled dispatch with a 30000 ms timeout produces
the 408 error naming 30 seconds, with the timer disarmed. -/
theorem fetch_timeout_and_timer_witness :
    (fetchAtlassian 1048576 30000 FetchOutcome.abortError).2 = true ∧
    (fetchAtlassian 1048576 30000 FetchOutcome.abortError).1 =
      FetchResult.err
        { kind := ErrorKind.ApiError,
          message :=
            "Request timeout: Bitbucket API did not respond within 30 seconds",
          status := some 408 } :=
  ⟨(fetch_timeout_and_timer 1048576 30000 FetchOutcome.abortError).1,
    (fetch_timeout_and_timer 1048576 30000 FetchOutcome.abortError).2 rfl⟩

/-- Claim C5: a response whose declared `Content-Length` exceeds the
configured maximum fails with `ApiError` status 413, and the result is
independent of the response body and content type — the decoder is never
consulted. -/
theorem oversized_response_rejected (maxSize : Nat) (r : RawResponse)
    (h : sizeExceeded maxSize r = true) :
    (∃ e, handleResponse maxSize r = FetchResult.err e ∧
      e.kind = ErrorKind.ApiError ∧ e.status = some 413) ∧
    (∀ b ct, handleResponse maxSize { r with body := b, contentType := ct } =
      handleResponse maxSize r) := by
  constructor
  · have he : handleResponse maxSize r = FetchResult.err (createApiError
        ("Response size (" ++
          toString (mathRoundDiv ((declaredSize r).getD 0) 1048576) ++
          "MB) exceeds maximum limit of " ++
          toString (mathRoundDiv maxSize 1048576) ++ "MB") 413) := by
      simp [handleResponse, h]
    exact ⟨_, he, rfl, rfl⟩
  · intro b ct
    have hsz : sizeExceeded maxSize { r with body := b, contentType := ct } =
        sizeExceeded maxSize r := rfl
    have hds : declaredSize { r with body := b, contentType := ct } =
        declaredSize r := rfl
    simp [handleResponse, hsz, hds, h]

/-- Witness for C5: a declared 99999999-byte response against a 1000-byte
limit is rejected with 413, whatever body or content type it carries. -/
theorem oversized_response_rejected_witness :
    (∃ e, handleResponse 1000
        { status := 200, statusText := "OK",
          contentLength := some "99999999" } = FetchResult.err e ∧
      e.kind = ErrorKind.ApiError ∧ e.status = some 413) ∧
    handleResponse 1000
        { status := 200, statusText := "OK", contentLength := some "99999999",
          body := "zzz", contentType := some "text/plain" } =
      handleResponse 1000
        { status := 200, statusText := "OK", contentLength := some "99999999" } :=
  ⟨(oversized_response_rejected 1000
      { status := 200, statusText := "OK", contentLength := some "99999999" }
      (by decide)).1,
    (oversized_response_rejected 1000
      { status := 200, statusText := "OK", contentLength := some "99999999" }
      (by decide)).2 "zzz" (some "text/plain")⟩

/-- Claim C10: with no declared `Content-Length` the size guard is skipped
entirely — the guard condition is false and a 2xx response is decoded
whatever the actual size of its body. -/
theorem no_content_length_skips_guard (maxSize : Nat) (r : RawResponse)
    (h : r.contentLength = none) :
    sizeExceeded maxSize r = false ∧
    (responseOk r = true →
      handleResponse maxSize r =
        FetchResult.ok (decodeSuccessBody r.contentType r.body)) := by
  have hs : sizeExceeded maxSize r = false := by
    simp [sizeExceeded, declaredSize, h]
  exact ⟨hs, fun hok => by simp [handleResponse, hs, hok]⟩

/-- Witness for C10: a 200 response with no `Content-Length` and a body far
larger than a 3-byte limit is decoded, not rejected. -/
theorem no_content_length_skips_guard_witness :
    sizeExceeded 3
      { status := 200, statusText := "OK",
        contentType := some "application/json", body := "[1,2,3,4,5,6,7,8]" } =
      false ∧
    handleResponse 3
      { status := 200, statusText := "OK",
        contentType := some "application/json", body := "[1,2,3,4,5,6,7,8]" } =
      FetchResult.ok (decodeSuccessBody (some "application/json")
        "[1,2,3,4,5,6,7,8]") :=
  ⟨(no_content_length_skips_guard 3 _ rfl).1,
    (no_content_length_skips_guard 3 _ rfl).2 rfl⟩

/-! ## The corrected claims -/

/-- The vendor error body of claim C2:
`{"type":"error","error":{"message":"Repository not found","detail":"x"}}`. -/
def bodyC2 : String :=
  "\x7b\"type\":\"error\",\"error\":\x7b\"message\":\"Repository not found\",\"detail\":\"x\"\x7d\x7d"

/-- Counterexample to claim C2 as stated: on that body with status 404 the
extracted vendor message is "Repository not found Detail: x" — line 272
appends " Detail: x" with no period after "found" — and the typed error's
message also carries the 404 branch's "Bitbucket API: Resource not found - "
preamble, so it is not the claimed "Repository not found. Detail: x". -/
theorem vendor_error_message_counterexample :
    extractErrorMessage 404 "Not Found" bodyC2 = "Repository not found Detail: x" ∧
    (classify 404 "Not Found" bodyC2).message ≠ "Repository not found. Detail: x" :=
  ⟨by decide, by decide⟩

/-- Claim C2 as amended: on that body with status 404 the typed error has
kind `ApiError` and status 404 as claimed, and its message is
"Bitbucket API: Resource not found - Repository not found Detail: x"
(vendor message "Repository not found Detail: x", without a period after
"found", behind the 404 branch's preamble). -/
theorem vendor_error_extraction :
    classify 404 "Not Found" bodyC2 =
      { kind := ErrorKind.ApiError,
        message := "Bitbucket API: Resource not found - Repository not found Detail: x",
        status := some 404 } := by decide

/-- The 200 response of the C3 counterexample: declared `text/plain`, empty
body. -/
def rC3 : RawResponse :=
  { status := 200, statusText := "OK", contentType := some "text/plain",
    body := "" }

/-- Counterexample to claim C3 as stated: a 2xx response whose Content-Type
contains `text/plain` returns the raw text even when the body is empty
(lines 358-367 run before the empty-body check), so the decode is
`Text ""`, not `Empty`. -/
theorem empty_textplain_counterexample :
    decodeSuccessBody (some "text/plain") "" = DecodedBody.text "" ∧
    handleResponse 1048576 rC3 = FetchResult.ok (DecodedBody.text "") ∧
    DecodedBody.text "" ≠ DecodedBody.empty :=
  ⟨rfl, rfl, fun h => DecodedBody.noConfusion h⟩

/-- Claim C3 as amended: a 2xx response whose body is empty or
whitespace-only decodes to `Empty` whenever the declared Content-Type does
not contain `text/plain` (with `text/plain` the raw text is returned
instead). -/
theorem empty_body_decodes_empty (ct : Option String) (body : String)
    (h1 : jsIncludes (ct.getD "") "text/plain" = false)
    (h2 : jsTrim body = "") :
    decodeSuccessBody ct body = DecodedBody.empty := by
  simp [decodeSuccessBody, h1, h2]

/-- Witness for the amended C3: a whitespace-only JSON-typed body decodes to
`Empty`. -/
theorem empty_body_decodes_empty_witness :
    jsIncludes "application/json" "text/plain" = false ∧
    jsTrim "  " = "" ∧
    decodeSuccessBody (some "application/json") "  " = DecodedBody.empty :=
  ⟨by decide, by decide,
    empty_body_decodes_empty (some "application/json") "  " (by decide) (by decide)⟩

/-- Credentials for the C7 counterexample. -/
def credC7 : AtlassianCredentials := { oauthToken := some "t", useOAuth := some true }

/-- Options for the C7 counterexample: a structured body with a declared
Content-Type that is neither JSON, multipart, nor url-encoded. -/
def optsC7 : RequestOptions :=
  { headers := [("Content-Type", "text/xml")],
    body := some (Json.obj [("a", Json.num 1)]) }

/-- The request the builder produces for the C7 counterexample. -/
def reqC7 : HttpRequest :=
  { url := "https://api.bitbucket.org/x", method := "GET",
    headers := [("Authorization", "Bearer t"), ("Content-Type", "text/xml"),
      ("Accept", "application/json"), ("Content-Type", "text/xml")],
    body := EncodedBody.str "\x7b\"a\":1\x7d" }

/-- Counterexample to claim C7 as stated: a structured body with effective
Content-Type `text/xml` — neither `application/json`, multipart, nor
url-encoded — does not fail with `UnexpectedError`; the build succeeds and
the body is JSON-serialized (lines 174-187 end in an unconditional
`JSON.stringify` else-branch and contain no failure path). -/
theorem body_encoding_counterexample :
    buildRequest credC7 "/x" optsC7 = Except.ok reqC7 ∧
    reqC7.body = EncodedBody.str "\x7b\"a\":1\x7d" :=
  ⟨rfl, rfl⟩

/-- Claim C7 as amended: a (truthy) string body passes through unchanged; a
structured body passes through unencoded when the effective Content-Type
includes `multipart/form-data` or equals
`application/x-www-form-urlencoded`, and in every other case — including
`application/json` — is serialized to JSON text; no combination raises an
encoding error. -/
theorem encodeBody_behavior (hs : List (String × String)) (b : Json) (s : String) :
    (s ≠ "" → encodeBody hs (some (Json.str s)) = EncodedBody.str s) ∧
    (b.truthy = true → b.isStr = false →
      (multipartContentType hs = true →
        encodeBody hs (some b) = EncodedBody.raw b) ∧
      (multipartContentType hs = false →
        getHeader hs "Content-Type" = some "application/x-www-form-urlencoded" →
        encodeBody hs (some b) = EncodedBody.raw b) ∧
      (multipartContentType hs = false →
        getHeader hs "Content-Type" ≠ some "application/x-www-form-urlencoded" →
        encodeBody hs (some b) = EncodedBody.str (Json.serialize b))) := by
  refine ⟨fun hne => ?_,
    fun htr hstr => ⟨fun hm => ?_, fun hm hu => ?_, fun hm hu => ?_⟩⟩
  · simp [encodeBody, Json.truthy, hne, Json.isStr, jsToString]
  · simp [encodeBody, htr, hstr, hm]
  · simp [encodeBody, htr, hstr, hm, hu]
  · simp [encodeBody, htr, hstr, hm, hu]

/-- Witness for the amended C7: a string body passes through; a structured
body under `application/json` is serialized; the same structured body under
a multipart Content-Type passes through raw. -/
theorem encodeBody_behavior_witness :
    encodeBody [("Content-Type", "application/json")] (some (Json.str "raw=1")) =
      EncodedBody.str "raw=1" ∧
    encodeBody [("Content-Type", "application/json")]
        (some (Json.obj [("a", Json.num 1)])) =
      EncodedBody.str (Json.serialize (Json.obj [("a", Json.num 1)])) ∧
    encodeBody [("Content-Type", "multipart/form-data; boundary=x")]
        (some (Json.obj [("a", Json.num 1)])) =
      EncodedBody.raw (Json.obj [("a", Json.num 1)]) :=
  ⟨(encodeBody_behavior [("Content-Type", "application/json")]
      (Json.obj [("a", Json.num 1)]) "raw=1").1 (by decide),
    ((encodeBody_behavior [("Content-Type", "application/json")]
      (Json.obj [("a", Json.num 1)]) "raw=1").2 rfl rfl).2.2 (by decide) (by decide),
    ((encodeBody_behavior [("Content-Type", "multipart/form-data; boundary=x")]
      (Json.obj [("a", Json.num 1)]) "raw=1").2 rfl rfl).1 (by decide)⟩

/-- Credentials for the C8 counterexample. -/
def credC8 : AtlassianCredentials := { oauthToken := some "t", useOAuth := some true }

/-- Options for the C8 counterexample: the caller supplies its own `Accept`
header. -/
def optsC8 : RequestOptions := { headers := [("Accept", "text/plain")] }

/-- The request the builder produces for the C8 counterexample. -/
def reqC8 : HttpRequest :=
  { url := "https://api.bitbucket.org/x", method := "GET",
    headers := [("Authorization", "Bearer t"),
      ("Content-Type", "application/json"), ("Accept", "application/json"),
      ("Accept", "text/plain")],
    body := EncodedBody.missing }

/-- Counterexample to claim C8 as stated: the caller's headers are spread
after the defaults (line 168), so a caller-supplied `Accept` overrides the
default and the built request carries `Accept: text/plain`, not
`application/json`. -/
theorem accept_header_counterexample :
    buildRequest credC8 "/x" optsC8 = Except.ok reqC8 ∧
    getHeader reqC8.headers "Accept" = some "text/plain" ∧
    some "text/plain" ≠ some "application/json" :=
  ⟨rfl, rfl, by decide⟩

/-- Header lookup distributes over the object spread: the later (caller)
bindings win, the defaults apply only to keys the caller leaves unset. -/
theorem getHeader_append (xs ys : List (String × String)) (k : String) :
    getHeader (xs ++ ys) k =
      match getHeader ys k with
      | some v => some v
      | none => getHeader xs k := by
  induction xs with
  | nil =>
    cases h : getHeader ys k <;> simp [getHeader, h]
  | cons p t ih =>
    show getHeader (p :: (t ++ ys)) k = _
    rw [getHeader, ih]
    cases h : getHeader ys k <;> cases h2 : getHeader t k <;>
      simp [getHeader, h, h2]

/-- Claim C8 as amended: the default `Accept: application/json` is set on
every request but is overridable — whenever the caller supplies no `Accept`
header of their own, the built request carries `Accept: application/json`. -/
theorem accept_header_default (credentials : AtlassianCredentials)
    (path : String) (options : RequestOptions) (req : HttpRequest)
    (hacc : getHeader options.headers "Accept" = none)
    (hok : buildRequest credentials path options = Except.ok req) :
    getHeader req.headers "Accept" = some "application/json" := by
  unfold buildRequest at hok
  revert hok
  cases authHeaderFor credentials with
  | error e => intro hok; exact Except.noConfusion hok
  | ok a =>
    intro hok
    injection hok with h'
    subst h'
    rw [show (HttpRequest.mk _ _ _ _).headers = _ from rfl, getHeader_append, hacc]
    rfl

/-- Witness for the amended C8: with no caller headers at all, the built
request accepts JSON. -/
theorem accept_header_default_witness :
    getHeader
      (HttpRequest.mk "https://api.bitbucket.org/x" "GET"
        [("Authorization", "Bearer t"), ("Content-Type", "application/json"),
          ("Accept", "application/json")] EncodedBody.missing).headers
      "Accept" = some "application/json" :=
  accept_header_default { oauthToken := some "t", useOAuth := some true } "/x"
    {} _ rfl rfl
